import Mathlib

set_option maxHeartbeats 2000000
set_option maxRecDepth 100000

/-
Verification of the 6502 CPU core in src/src/olc6502.cpp (class nes::OLC6502,
together with src/include/olc6502.h and src/include/bus.h).

Shallow embedding conventions:
* uint8 values are Nat kept below 256, uint16 values Nat kept below 65536;
  wraparound points in the C++ (increments, decrements, additions on machine
  integers) are rendered with explicit `% 256` / `% 65536`.
* The Bus (bus.h) is a total function `ram : Nat → Nat`; `Bus::read` on a
  uint16 address always hits the 64 KiB array, which the embedding renders by
  reducing the address `% 65536` (the uint16 argument conversion) and the
  stored byte `% 256` (the uint8 element type).
* The C++ member-pointer dispatch table `lookup` stores an addressing-mode
  member pointer and an operation member pointer drawn from one function
  space; the embedding uses a single tag type `F` for both columns, so the
  source comparisons such as `lookup[opcode].operate == &OLC6502::IMP`
  translate to decidable tag equality.
* `~e` on a promoted 16-bit quantity is rendered as `e ^^^ 0xFFFF`, which
  agrees with the C++ integer complement on every bit that the source
  subsequently masks.
* The uint64 `cycle_count` is modelled as an unbounded Nat: its 2^64
  wraparound is unreachable and no claim depends on it.
-/

/-- Register file, transient decode state and the connected Bus content of
`nes::OLC6502` (fields `a`/`x`/`y`/`sp`/`pc`/`status` from olc6502.cpp, plus
`addr_abs`, `addr_rel`, `opcode`, `cycles`, `cycle_count`, and the Bus RAM). -/
structure OLC6502 where
  a : Nat := 0
  x : Nat := 0
  y : Nat := 0
  sp : Nat := 0
  pc : Nat := 0
  status : Nat := 0
  addr_abs : Nat := 0
  addr_rel : Nat := 0
  opcode : Nat := 0
  cycles : Nat := 0
  cycle_count : Nat := 0
  ram : Nat → Nat := fun _ => 0

namespace Flag

/-- E_CARRAY_BIT -/
def C : Nat := 1

/-- E_ZERO -/
def Z : Nat := 2

/-- E_DISABLE_INTERRUPTS -/
def I : Nat := 4

/-- E_DECIMAL_MODE -/
def D : Nat := 8

/-- E_BREAK -/
def B : Nat := 16

/-- E_UNUSED -/
def U : Nat := 32

/-- E_OVERFLOW -/
def V : Nat := 64

/-- E_NEGATIVE -/
def N : Nat := 128

end Flag

/-- Tags for the member functions stored in the `lookup` table: the twelve
addressing-mode resolvers followed by the operation bodies. -/
inductive F where
  | IMP | IMM | ZP0 | ZPX | ZPY | REL | ABS | ABX | ABY | IND | IZX | IZY
  | ADC | AND | ASL | BCC | BCS | BEQ | BIT | BMI | BNE | BPL | BRK | BVC | BVS
  | CLC | CLD | CLI | CLV | CMP | CPX | CPY | DEC | DEX | DEY | EOR | INC | INX
  | INY | JMP | JSR | LDA | LDX | LDY | LSR | NOP | ORA | PHA | PHP | PLA | PLP
  | ROL | ROR | RTI | RTS | SBC | SEC | SED | SEI | STA | STX | STY
  | TAX | TAY | TSX | TXA | TXS | TYA | XXX
  deriving DecidableEq

/-- One entry of the `lookup` vector (struct `OLC6502::Instruction`). -/
structure Instr where
  name : String
  operate : F
  addrmode : F
  cycles : Nat
  deriving DecidableEq

/-- `OLC6502::read`: reads through the connected Bus.  `Bus::read` returns the
RAM byte for every uint16 address (the bounds check always passes). -/
def OLC6502.read (s : OLC6502) (address : Nat) : Nat :=
  s.ram (address % 65536) % 256

/-- `OLC6502::write`: stores a byte through the connected Bus. -/
def OLC6502.write (s : OLC6502) (address data : Nat) : OLC6502 :=
  { s with ram := fun addr => if addr = address % 65536 then data % 256 else s.ram addr }

/-- `OLC6502::getFlag`: `(status_register & flag) > 0 ? 1 : 0`. -/
def getFlag (s : OLC6502) (f : Nat) : Nat :=
  if s.status &&& f > 0 then 1 else 0

/-- `OLC6502::setFlag`: OR the bit in, or AND it out with the uint8
complement of the mask. -/
def setFlag (s : OLC6502) (f : Nat) (v : Prop) [Decidable v] : OLC6502 :=
  if v then { s with status := s.status ||| f }
  else { s with status := s.status &&& (255 ^^^ f) }

/-- STACK_OFFSET from olc6502.h. -/
def STACK_OFFSET : Nat := 0x0100

/-- Row 0x00 of the `OLC6502::lookup` table (olc6502.h). -/
def lookupRow0 : List Instr := [
  ⟨"BRK", .BRK, .IMM, 7⟩, ⟨"ORA", .ORA, .IZX, 6⟩, ⟨"???", .XXX, .IMP, 2⟩, ⟨"???", .XXX, .IMP, 8⟩,
  ⟨"???", .NOP, .IMP, 3⟩, ⟨"ORA", .ORA, .ZP0, 3⟩, ⟨"ASL", .ASL, .ZP0, 5⟩, ⟨"???", .XXX, .IMP, 5⟩,
  ⟨"PHP", .PHP, .IMP, 3⟩, ⟨"ORA", .ORA, .IMM, 2⟩, ⟨"ASL", .ASL, .IMP, 2⟩, ⟨"???", .XXX, .IMP, 2⟩,
  ⟨"???", .NOP, .IMP, 4⟩, ⟨"ORA", .ORA, .ABS, 4⟩, ⟨"ASL", .ASL, .ABS, 6⟩, ⟨"???", .XXX, .IMP, 6⟩]

/-- Row 0x10 of the `OLC6502::lookup` table (olc6502.h). -/
def lookupRow1 : List Instr := [
  ⟨"BPL", .BPL, .REL, 2⟩, ⟨"ORA", .ORA, .IZY, 5⟩, ⟨"???", .XXX, .IMP, 2⟩, ⟨"???", .XXX, .IMP, 8⟩,
  ⟨"???", .NOP, .IMP, 4⟩, ⟨"ORA", .ORA, .ZPX, 4⟩, ⟨"ASL", .ASL, .ZPX, 6⟩, ⟨"???", .XXX, .IMP, 6⟩,
  ⟨"CLC", .CLC, .IMP, 2⟩, ⟨"ORA", .ORA, .ABY, 4⟩, ⟨"???", .NOP, .IMP, 2⟩, ⟨"???", .XXX, .IMP, 7⟩,
  ⟨"???", .NOP, .IMP, 4⟩, ⟨"ORA", .ORA, .ABX, 4⟩, ⟨"ASL", .ASL, .ABX, 7⟩, ⟨"???", .XXX, .IMP, 7⟩]

/-- Row 0x20 of the `OLC6502::lookup` table (olc6502.h). -/
def lookupRow2 : List Instr := [
  ⟨"JSR", .JSR, .ABS, 6⟩, ⟨"AND", .AND, .IZX, 6⟩, ⟨"???", .XXX, .IMP, 2⟩, ⟨"???", .XXX, .IMP, 8⟩,
  ⟨"BIT", .BIT, .ZP0, 3⟩, ⟨"AND", .AND, .ZP0, 3⟩, ⟨"ROL", .ROL, .ZP0, 5⟩, ⟨"???", .XXX, .IMP, 5⟩,
  ⟨"PLP", .PLP, .IMP, 4⟩, ⟨"AND", .AND, .IMM, 2⟩, ⟨"ROL", .ROL, .IMP, 2⟩, ⟨"???", .XXX, .IMP, 2⟩,
  ⟨"BIT", .BIT, .ABS, 4⟩, ⟨"AND", .AND, .ABS, 4⟩, ⟨"ROL", .ROL, .ABS, 6⟩, ⟨"???", .XXX, .IMP, 6⟩]

/-- Row 0x30 of the `OLC6502::lookup` table (olc6502.h). -/
def lookupRow3 : List Instr := [
  ⟨"BMI", .BMI, .REL, 2⟩, ⟨"AND", .AND, .IZY, 5⟩, ⟨"???", .XXX, .IMP, 2⟩, ⟨"???", .XXX, .IMP, 8⟩,
  ⟨"???", .NOP, .IMP, 4⟩, ⟨"AND", .AND, .ZPX, 4⟩, ⟨"ROL", .ROL, .ZPX, 6⟩, ⟨"???", .XXX, .IMP, 6⟩,
  ⟨"SEC", .SEC, .IMP, 2⟩, ⟨"AND", .AND, .ABY, 4⟩, ⟨"???", .NOP, .IMP, 2⟩, ⟨"???", .XXX, .IMP, 7⟩,
  ⟨"???", .NOP, .IMP, 4⟩, ⟨"AND", .AND, .ABX, 4⟩, ⟨"ROL", .ROL, .ABX, 7⟩, ⟨"???", .XXX, .IMP, 7⟩]

/-- Row 0x40 of the `OLC6502::lookup` table (olc6502.h). -/
def lookupRow4 : List Instr := [
  ⟨"RTI", .RTI, .IMP, 6⟩, ⟨"EOR", .EOR, .IZX, 6⟩, ⟨"???", .XXX, .IMP, 2⟩, ⟨"???", .XXX, .IMP, 8⟩,
  ⟨"???", .NOP, .IMP, 3⟩, ⟨"EOR", .EOR, .ZP0, 3⟩, ⟨"LSR", .LSR, .ZP0, 5⟩, ⟨"???", .XXX, .IMP, 5⟩,
  ⟨"PHA", .PHA, .IMP, 3⟩, ⟨"EOR", .EOR, .IMM, 2⟩, ⟨"LSR", .LSR, .IMP, 2⟩, ⟨"???", .XXX, .IMP, 2⟩,
  ⟨"JMP", .JMP, .ABS, 3⟩, ⟨"EOR", .EOR, .ABS, 4⟩, ⟨"LSR", .LSR, .ABS, 6⟩, ⟨"???", .XXX, .IMP, 6⟩]

/-- Row 0x50 of the `OLC6502::lookup` table (olc6502.h). -/
def lookupRow5 : List Instr := [
  ⟨"BVC", .BVC, .REL, 2⟩, ⟨"EOR", .EOR, .IZY, 5⟩, ⟨"???", .XXX, .IMP, 2⟩, ⟨"???", .XXX, .IMP, 8⟩,
  ⟨"???", .NOP, .IMP, 4⟩, ⟨"EOR", .EOR, .ZPX, 4⟩, ⟨"LSR", .LSR, .ZPX, 6⟩, ⟨"???", .XXX, .IMP, 6⟩,
  ⟨"CLI", .CLI, .IMP, 2⟩, ⟨"EOR", .EOR, .ABY, 4⟩, ⟨"???", .NOP, .IMP, 2⟩, ⟨"???", .XXX, .IMP, 7⟩,
  ⟨"???", .NOP, .IMP, 4⟩, ⟨"EOR", .EOR, .ABX, 4⟩, ⟨"LSR", .LSR, .ABX, 7⟩, ⟨"???", .XXX, .IMP, 7⟩]

/-- Row 0x60 of the `OLC6502::lookup` table (olc6502.h). -/
def lookupRow6 : List Instr := [
  ⟨"RTS", .RTS, .IMP, 6⟩, ⟨"ADC", .ADC, .IZX, 6⟩, ⟨"???", .XXX, .IMP, 2⟩, ⟨"???", .XXX, .IMP, 8⟩,
  ⟨"???", .NOP, .IMP, 3⟩, ⟨"ADC", .ADC, .ZP0, 3⟩, ⟨"ROR", .ROR, .ZP0, 5⟩, ⟨"???", .XXX, .IMP, 5⟩,
  ⟨"PLA", .PLA, .IMP, 4⟩, ⟨"ADC", .ADC, .IMM, 2⟩, ⟨"ROR", .ROR, .IMP, 2⟩, ⟨"???", .XXX, .IMP, 2⟩,
  ⟨"JMP", .JMP, .IND, 5⟩, ⟨"ADC", .ADC, .ABS, 4⟩, ⟨"ROR", .ROR, .ABS, 6⟩, ⟨"???", .XXX, .IMP, 6⟩]

/-- Row 0x70 of the `OLC6502::lookup` table (olc6502.h). -/
def lookupRow7 : List Instr := [
  ⟨"BVS", .BVS, .REL, 2⟩, ⟨"ADC", .ADC, .IZY, 5⟩, ⟨"???", .XXX, .IMP, 2⟩, ⟨"???", .XXX, .IMP, 8⟩,
  ⟨"???", .NOP, .IMP, 4⟩, ⟨"ADC", .ADC, .ZPX, 4⟩, ⟨"ROR", .ROR, .ZPX, 6⟩, ⟨"???", .XXX, .IMP, 6⟩,
  ⟨"SEI", .SEI, .IMP, 2⟩, ⟨"ADC", .ADC, .ABY, 4⟩, ⟨"???", .NOP, .IMP, 2⟩, ⟨"???", .XXX, .IMP, 7⟩,
  ⟨"???", .NOP, .IMP, 4⟩, ⟨"ADC", .ADC, .ABX, 4⟩, ⟨"ROR", .ROR, .ABX, 7⟩, ⟨"???", .XXX, .IMP, 7⟩]

/-- Row 0x80 of the `OLC6502::lookup` table (olc6502.h). -/
def lookupRow8 : List Instr := [
  ⟨"???", .NOP, .IMP, 2⟩, ⟨"STA", .STA, .IZX, 6⟩, ⟨"???", .NOP, .IMP, 2⟩, ⟨"???", .XXX, .IMP, 6⟩,
  ⟨"STY", .STY, .ZP0, 3⟩, ⟨"STA", .STA, .ZP0, 3⟩, ⟨"STX", .STX, .ZP0, 3⟩, ⟨"???", .XXX, .IMP, 3⟩,
  ⟨"DEY", .DEY, .IMP, 2⟩, ⟨"???", .NOP, .IMP, 2⟩, ⟨"TXA", .TXA, .IMP, 2⟩, ⟨"???", .XXX, .IMP, 2⟩,
  ⟨"STY", .STY, .ABS, 4⟩, ⟨"STA", .STA, .ABS, 4⟩, ⟨"STX", .STX, .ABS, 4⟩, ⟨"???", .XXX, .IMP, 4⟩]

/-- Row 0x90 of the `OLC6502::lookup` table (olc6502.h). -/
def lookupRow9 : List Instr := [
  ⟨"BCC", .BCC, .REL, 2⟩, ⟨"STA", .STA, .IZY, 6⟩, ⟨"???", .XXX, .IMP, 2⟩, ⟨"???", .XXX, .IMP, 6⟩,
  ⟨"STY", .STY, .ZPX, 4⟩, ⟨"STA", .STA, .ZPX, 4⟩, ⟨"STX", .STX, .ZPY, 4⟩, ⟨"???", .XXX, .IMP, 4⟩,
  ⟨"TYA", .TYA, .IMP, 2⟩, ⟨"STA", .STA, .ABY, 5⟩, ⟨"TXS", .TXS, .IMP, 2⟩, ⟨"???", .XXX, .IMP, 5⟩,
  ⟨"???", .NOP, .IMP, 5⟩, ⟨"STA", .STA, .ABX, 5⟩, ⟨"???", .XXX, .IMP, 5⟩, ⟨"???", .XXX, .IMP, 5⟩]

/-- Row 0xA0 of the `OLC6502::lookup` table (olc6502.h). -/
def lookupRow10 : List Instr := [
  ⟨"LDY", .LDY, .IMM, 2⟩, ⟨"LDA", .LDA, .IZX, 6⟩, ⟨"LDX", .LDX, .IMM, 2⟩, ⟨"???", .XXX, .IMP, 6⟩,
  ⟨"LDY", .LDY, .ZP0, 3⟩, ⟨"LDA", .LDA, .ZP0, 3⟩, ⟨"LDX", .LDX, .ZP0, 3⟩, ⟨"???", .XXX, .IMP, 3⟩,
  ⟨"TAY", .TAY, .IMP, 2⟩, ⟨"LDA", .LDA, .IMM, 2⟩, ⟨"TAX", .TAX, .IMP, 2⟩, ⟨"???", .XXX, .IMP, 2⟩,
  ⟨"LDY", .LDY, .ABS, 4⟩, ⟨"LDA", .LDA, .ABS, 4⟩, ⟨"LDX", .LDX, .ABS, 4⟩, ⟨"???", .XXX, .IMP, 4⟩]

/-- Row 0xB0 of the `OLC6502::lookup` table (olc6502.h). -/
def lookupRow11 : List Instr := [
  ⟨"BCS", .BCS, .REL, 2⟩, ⟨"LDA", .LDA, .IZY, 5⟩, ⟨"???", .XXX, .IMP, 2⟩, ⟨"???", .XXX, .IMP, 5⟩,
  ⟨"LDY", .LDY, .ZPX, 4⟩, ⟨"LDA", .LDA, .ZPX, 4⟩, ⟨"LDX", .LDX, .ZPY, 4⟩, ⟨"???", .XXX, .IMP, 4⟩,
  ⟨"CLV", .CLV, .IMP, 2⟩, ⟨"LDA", .LDA, .ABY, 4⟩, ⟨"TSX", .TSX, .IMP, 2⟩, ⟨"???", .XXX, .IMP, 4⟩,
  ⟨"LDY", .LDY, .ABX, 4⟩, ⟨"LDA", .LDA, .ABX, 4⟩, ⟨"LDX", .LDX, .ABY, 4⟩, ⟨"???", .XXX, .IMP, 4⟩]

/-- Row 0xC0 of the `OLC6502::lookup` table (olc6502.h). -/
def lookupRow12 : List Instr := [
  ⟨"CPY", .CPY, .IMM, 2⟩, ⟨"CMP", .CMP, .IZX, 6⟩, ⟨"???", .NOP, .IMP, 2⟩, ⟨"???", .XXX, .IMP, 8⟩,
  ⟨"CPY", .CPY, .ZP0, 3⟩, ⟨"CMP", .CMP, .ZP0, 3⟩, ⟨"DEC", .DEC, .ZP0, 5⟩, ⟨"???", .XXX, .IMP, 5⟩,
  ⟨"INY", .INY, .IMP, 2⟩, ⟨"CMP", .CMP, .IMM, 2⟩, ⟨"DEX", .DEX, .IMP, 2⟩, ⟨"???", .XXX, .IMP, 2⟩,
  ⟨"CPY", .CPY, .ABS, 4⟩, ⟨"CMP", .CMP, .ABS, 4⟩, ⟨"DEC", .DEC, .ABS, 6⟩, ⟨"???", .XXX, .IMP, 6⟩]

/-- Row 0xD0 of the `OLC6502::lookup` table (olc6502.h). -/
def lookupRow13 : List Instr := [
  ⟨"BNE", .BNE, .REL, 2⟩, ⟨"CMP", .CMP, .IZY, 5⟩, ⟨"???", .XXX, .IMP, 2⟩, ⟨"???", .XXX, .IMP, 8⟩,
  ⟨"???", .NOP, .IMP, 4⟩, ⟨"CMP", .CMP, .ZPX, 4⟩, ⟨"DEC", .DEC, .ZPX, 6⟩, ⟨"???", .XXX, .IMP, 6⟩,
  ⟨"CLD", .CLD, .IMP, 2⟩, ⟨"CMP", .CMP, .ABY, 4⟩, ⟨"NOP", .NOP, .IMP, 2⟩, ⟨"???", .XXX, .IMP, 7⟩,
  ⟨"???", .NOP, .IMP, 4⟩, ⟨"CMP", .CMP, .ABX, 4⟩, ⟨"DEC", .DEC, .ABX, 7⟩, ⟨"???", .XXX, .IMP, 7⟩]

/-- Row 0xE0 of the `OLC6502::lookup` table (olc6502.h). -/
def lookupRow14 : List Instr := [
  ⟨"CPX", .CPX, .IMM, 2⟩, ⟨"SBC", .SBC, .IZX, 6⟩, ⟨"???", .NOP, .IMP, 2⟩, ⟨"???", .XXX, .IMP, 8⟩,
  ⟨"CPX", .CPX, .ZP0, 3⟩, ⟨"SBC", .SBC, .ZP0, 3⟩, ⟨"INC", .INC, .ZP0, 5⟩, ⟨"???", .XXX, .IMP, 5⟩,
  ⟨"INX", .INX, .IMP, 2⟩, ⟨"SBC", .SBC, .IMM, 2⟩, ⟨"NOP", .NOP, .IMP, 2⟩, ⟨"???", .SBC, .IMP, 2⟩,
  ⟨"CPX", .CPX, .ABS, 4⟩, ⟨"SBC", .SBC, .ABS, 4⟩, ⟨"INC", .INC, .ABS, 6⟩, ⟨"???", .XXX, .IMP, 6⟩]

/-- Row 0xF0 of the `OLC6502::lookup` table (olc6502.h). -/
def lookupRow15 : List Instr := [
  ⟨"BEQ", .BEQ, .REL, 2⟩, ⟨"SBC", .SBC, .IZY, 5⟩, ⟨"???", .XXX, .IMP, 2⟩, ⟨"???", .XXX, .IMP, 8⟩,
  ⟨"???", .NOP, .IMP, 4⟩, ⟨"SBC", .SBC, .ZPX, 4⟩, ⟨"INC", .INC, .ZPX, 6⟩, ⟨"???", .XXX, .IMP, 6⟩,
  ⟨"SED", .SED, .IMP, 2⟩, ⟨"SBC", .SBC, .ABY, 4⟩, ⟨"NOP", .NOP, .IMP, 2⟩, ⟨"???", .XXX, .IMP, 7⟩,
  ⟨"???", .NOP, .IMP, 4⟩, ⟨"SBC", .SBC, .ABX, 4⟩, ⟨"INC", .INC, .ABX, 7⟩, ⟨"???", .XXX, .IMP, 7⟩]

/-- The 256-entry instruction table `OLC6502::lookup` from olc6502.h,
row by row (16 opcodes per source row). -/
def lookupList : List Instr :=
  lookupRow0 ++ lookupRow1 ++ lookupRow2 ++ lookupRow3 ++ lookupRow4 ++ lookupRow5 ++
  lookupRow6 ++ lookupRow7 ++ lookupRow8 ++ lookupRow9 ++ lookupRow10 ++ lookupRow11 ++
  lookupRow12 ++ lookupRow13 ++ lookupRow14 ++ lookupRow15

/-- `lookup[opcode]`.  The C++ index is a uint8, so only the first 256
entries are ever selected; the default entry is unreachable. -/
def lookupInstr (opcode : Nat) : Instr :=
  lookupList.getD opcode ⟨"???", .XXX, .IMP, 2⟩

/-- `OLC6502::IMP`: implied addressing, no operand. -/
def OLC6502.IMP (s : OLC6502) : OLC6502 × Nat := (s, 0)

/-- `OLC6502::IMM`: `addr_abs = pc; pc++`. -/
def OLC6502.IMM (s : OLC6502) : OLC6502 × Nat :=
  ({ s with addr_abs := s.pc, pc := (s.pc + 1) % 65536 }, 0)

/-- `OLC6502::ZP0`: `addr_abs = read(pc); pc++; addr_abs &= 0x00FF`. -/
def OLC6502.ZP0 (s : OLC6502) : OLC6502 × Nat :=
  ({ s with addr_abs := s.read s.pc &&& 255, pc := (s.pc + 1) % 65536 }, 0)

/-- `OLC6502::ZPX`: `addr_abs = read(pc) + x; pc++; addr_abs &= 0x00FF`. -/
def OLC6502.ZPX (s : OLC6502) : OLC6502 × Nat :=
  ({ s with addr_abs := (s.read s.pc + s.x) &&& 255, pc := (s.pc + 1) % 65536 }, 0)

/-- `OLC6502::ZPY`: `addr_abs = read(pc) + y; pc++; addr_abs &= 0x00FF`. -/
def OLC6502.ZPY (s : OLC6502) : OLC6502 × Nat :=
  ({ s with addr_abs := (s.read s.pc + s.y) &&& 255, pc := (s.pc + 1) % 65536 }, 0)

/-- `OLC6502::REL`: latch the displacement byte at `pc` into `addr_rel`,
sign-extending it to 16 bits.  The source does not advance `pc`. -/
def OLC6502.REL (s : OLC6502) : OLC6502 × Nat :=
  let r := s.read s.pc
  ({ s with addr_rel := if r &&& 0x80 ≠ 0 then r ||| 0xFF00 else r }, 0)

/-- `OLC6502::ABS`: low byte then high byte, two `pc` advances. -/
def OLC6502.ABS (s : OLC6502) : OLC6502 × Nat :=
  let lo := s.read s.pc
  let s := { s with pc := (s.pc + 1) % 65536 }
  let hi := s.read s.pc
  let s := { s with pc := (s.pc + 1) % 65536 }
  ({ s with addr_abs := (hi <<< 8) ||| lo }, 0)

/-- `OLC6502::ABX`: absolute address plus `x`; extra cycle when the high
byte of the sum differs from the fetched high byte. -/
def OLC6502.ABX (s : OLC6502) : OLC6502 × Nat :=
  let lo := s.read s.pc
  let s := { s with pc := (s.pc + 1) % 65536 }
  let hi := s.read s.pc
  let s := { s with pc := (s.pc + 1) % 65536 }
  let t := (((hi <<< 8) ||| lo) + s.x) % 65536
  ({ s with addr_abs := t }, if (t &&& 0xFF00) ≠ (hi <<< 8) then 1 else 0)

/-- `OLC6502::ABY`: absolute address plus `y`; same page-cross rule. -/
def OLC6502.ABY (s : OLC6502) : OLC6502 × Nat :=
  let lo := s.read s.pc
  let s := { s with pc := (s.pc + 1) % 65536 }
  let hi := s.read s.pc
  let s := { s with pc := (s.pc + 1) % 65536 }
  let t := (((hi <<< 8) ||| lo) + s.y) % 65536
  ({ s with addr_abs := t }, if (t &&& 0xFF00) ≠ (hi <<< 8) then 1 else 0)

/-- `OLC6502::IND`: read a 16-bit pointer, then the 16-bit target at that
pointer (the 0xFF page-wrap hardware quirk is not implemented). -/
def OLC6502.IND (s : OLC6502) : OLC6502 × Nat :=
  let lo := s.read s.pc
  let s := { s with pc := (s.pc + 1) % 65536 }
  let hi := s.read s.pc
  let s := { s with pc := (s.pc + 1) % 65536 }
  let ptr := (hi <<< 8) ||| lo
  ({ s with addr_abs := (s.read (ptr + 1) <<< 8) ||| s.read ptr }, 0)

/-- `OLC6502::IZX`: zero-page pointer offset by `x` (no 0x00FF mask on the
pointer itself), then the 16-bit target is read from it. -/
def OLC6502.IZX (s : OLC6502) : OLC6502 × Nat :=
  let zp := s.read s.pc + s.x
  let s := { s with pc := (s.pc + 1) % 65536 }
  ({ s with addr_abs := ((s.read (zp + 1) &&& 255) <<< 8) ||| (s.read zp &&& 255) }, 0)

/-- `OLC6502::IZY`: the source body is identical to `IZX` — it offsets the
zero-page pointer by `x` and never adds `y` to the target. -/
def OLC6502.IZY (s : OLC6502) : OLC6502 × Nat :=
  let zp := s.read s.pc + s.x
  let s := { s with pc := (s.pc + 1) % 65536 }
  ({ s with addr_abs := ((s.read (zp + 1) &&& 255) <<< 8) ||| (s.read zp &&& 255) }, 0)

/-- The branch body shared verbatim by all eight branch operations in the
source: when `cond` holds, charge one cycle, set the target, charge a second
cycle when the target page differs from the page of the current `pc`, and
jump. -/
def branchOp (s : OLC6502) (cond : Prop) [Decidable cond] : OLC6502 × Nat :=
  if cond then
    let c1 := (s.cycles + 1) % 256
    let t := (s.pc + s.addr_rel) % 65536
    let c2 := if (t &&& 0xFF00) ≠ (s.pc &&& 0xFF00) then (c1 + 1) % 256 else c1
    ({ s with cycles := c2, addr_abs := t, pc := t }, 0)
  else (s, 0)

/-- `OLC6502::ADC`: 16-bit sum of `a`, the operand and the carry-in; the
overflow test uses `~(a + data)`, written here as XOR with 0xFFFF. -/
def OLC6502.ADC (s : OLC6502) : OLC6502 × Nat :=
  let data := s.read s.addr_abs
  let temp := s.a + data + getFlag s Flag.C
  let s := setFlag s Flag.C (temp > 255)
  let s := setFlag s Flag.Z ((temp &&& 255) = 0)
  let s := setFlag s Flag.V ((((s.a + data) ^^^ 0xFFFF) &&& (s.a ^^^ temp) &&& 0x80) ≠ 0)
  let s := setFlag s Flag.N ((temp &&& 0x80) ≠ 0)
  ({ s with a := temp &&& 255 }, 0)

/-- `OLC6502::AND`. -/
def OLC6502.AND (s : OLC6502) : OLC6502 × Nat :=
  let data := s.read s.addr_abs
  let s := { s with a := s.a &&& data }
  let s := setFlag s Flag.Z (s.a = 0)
  let s := setFlag s Flag.N ((s.a &&& 0x80) ≠ 0)
  (s, 1)

/-- `OLC6502::ASL`: stubbed in the source, returns 0 with no effect. -/
def OLC6502.ASL (s : OLC6502) : OLC6502 × Nat := (s, 0)

/-- `OLC6502::BCC`: branch when the Carry flag reads 0. -/
def OLC6502.BCC (s : OLC6502) : OLC6502 × Nat := branchOp s (getFlag s Flag.C = 0)

/-- `OLC6502::BCS`: branch when the Carry flag reads 1. -/
def OLC6502.BCS (s : OLC6502) : OLC6502 × Nat := branchOp s (getFlag s Flag.C = 1)

/-- `OLC6502::BEQ`: branch when the Zero flag reads 1. -/
def OLC6502.BEQ (s : OLC6502) : OLC6502 × Nat := branchOp s (getFlag s Flag.Z = 1)

/-- `OLC6502::BIT`: stubbed in the source. -/
def OLC6502.BIT (s : OLC6502) : OLC6502 × Nat := (s, 0)

/-- `OLC6502::BMI`: branch when the Negative flag reads 1. -/
def OLC6502.BMI (s : OLC6502) : OLC6502 × Nat := branchOp s (getFlag s Flag.N = 1)

/-- `OLC6502::BNE`: the source tests `getFlag(Flag::N) == 0x00` — the
Negative flag, not the Zero flag. -/
def OLC6502.BNE (s : OLC6502) : OLC6502 × Nat := branchOp s (getFlag s Flag.N = 0)

/-- `OLC6502::BPL`: branch when the Negative flag reads 0. -/
def OLC6502.BPL (s : OLC6502) : OLC6502 × Nat := branchOp s (getFlag s Flag.N = 0)

/-- `OLC6502::BRK`: stubbed in the source. -/
def OLC6502.BRK (s : OLC6502) : OLC6502 × Nat := (s, 0)

/-- `OLC6502::BVC`: branch when the Overflow flag reads 0. -/
def OLC6502.BVC (s : OLC6502) : OLC6502 × Nat := branchOp s (getFlag s Flag.V = 0)

/-- `OLC6502::BVS`: branch when the Overflow flag reads 1. -/
def OLC6502.BVS (s : OLC6502) : OLC6502 × Nat := branchOp s (getFlag s Flag.V = 1)

/-- `OLC6502::CLC`. -/
def OLC6502.CLC (s : OLC6502) : OLC6502 × Nat := (setFlag s Flag.C False, 0)

/-- `OLC6502::CLD`. -/
def OLC6502.CLD (s : OLC6502) : OLC6502 × Nat := (setFlag s Flag.D False, 0)

/-- `OLC6502::CLI`. -/
def OLC6502.CLI (s : OLC6502) : OLC6502 × Nat := (setFlag s Flag.I False, 0)

/-- `OLC6502::CLV`. -/
def OLC6502.CLV (s : OLC6502) : OLC6502 × Nat := (setFlag s Flag.V False, 0)

/-- `OLC6502::CMP`: `tmp = a - data` in uint16 arithmetic; the source sets
Carry from the strict comparison `a > data`. -/
def OLC6502.CMP (s : OLC6502) : OLC6502 × Nat :=
  let data := s.read s.addr_abs
  let tmp := (s.a + 65536 - data) % 65536
  let s := setFlag s Flag.C (s.a > data)
  let s := setFlag s Flag.Z (tmp = 0)
  let s := setFlag s Flag.N ((tmp &&& 0x80) ≠ 0)
  (s, 0)

/-- `OLC6502::CPX`. -/
def OLC6502.CPX (s : OLC6502) : OLC6502 × Nat :=
  let data := s.read s.addr_abs
  let tmp := (s.x + 65536 - data) % 65536
  let s := setFlag s Flag.C (s.x > data)
  let s := setFlag s Flag.Z (tmp = 0)
  let s := setFlag s Flag.N ((tmp &&& 0x80) ≠ 0)
  (s, 0)

/-- `OLC6502::CPY`. -/
def OLC6502.CPY (s : OLC6502) : OLC6502 × Nat :=
  let data := s.read s.addr_abs
  let tmp := (s.y + 65536 - data) % 65536
  let s := setFlag s Flag.C (s.y > data)
  let s := setFlag s Flag.Z (tmp = 0)
  let s := setFlag s Flag.N ((tmp &&& 0x80) ≠ 0)
  (s, 0)

/-- `OLC6502::DEC`. -/
def OLC6502.DEC (s : OLC6502) : OLC6502 × Nat :=
  let data := s.read s.addr_abs
  let tmp := (data + 255) % 256
  let s := setFlag s Flag.Z (tmp = 0)
  let s := setFlag s Flag.N ((tmp &&& 0x80) ≠ 0)
  (s.write s.addr_abs (tmp &&& 255), 0)

/-- `OLC6502::DEX`. -/
def OLC6502.DEX (s : OLC6502) : OLC6502 × Nat :=
  let s := { s with x := (s.x + 255) % 256 }
  let s := setFlag s Flag.Z (s.x = 0)
  let s := setFlag s Flag.N ((s.x &&& 0x80) ≠ 0)
  (s, 0)

/-- `OLC6502::DEY`. -/
def OLC6502.DEY (s : OLC6502) : OLC6502 × Nat :=
  let s := { s with y := (s.y + 255) % 256 }
  let s := setFlag s Flag.Z (s.y = 0)
  let s := setFlag s Flag.N ((s.y &&& 0x80) ≠ 0)
  (s, 0)

/-- `OLC6502::EOR`. -/
def OLC6502.EOR (s : OLC6502) : OLC6502 × Nat :=
  let data := s.read s.addr_abs
  let s := { s with a := s.a ^^^ data }
  let s := setFlag s Flag.Z (s.a = 0)
  let s := setFlag s Flag.N ((s.a &&& 0x80) ≠ 0)
  (s, 1)

/-- `OLC6502::INC`: the source writes the incremented byte to `pc`, not to
`addr_abs`. -/
def OLC6502.INC (s : OLC6502) : OLC6502 × Nat :=
  let data := s.read s.addr_abs
  let tmp := (data + 1) % 256
  let s := setFlag s Flag.Z (tmp = 0)
  let s := setFlag s Flag.N ((tmp &&& 0x80) ≠ 0)
  (s.write s.pc tmp, 0)

/-- `OLC6502::INX`. -/
def OLC6502.INX (s : OLC6502) : OLC6502 × Nat :=
  let s := { s with x := (s.x + 1) % 256 }
  let s := setFlag s Flag.Z (s.x = 0)
  let s := setFlag s Flag.N ((s.x &&& 0x80) ≠ 0)
  (s, 0)

/-- `OLC6502::INY`. -/
def OLC6502.INY (s : OLC6502) : OLC6502 × Nat :=
  let s := { s with y := (s.y + 1) % 256 }
  let s := setFlag s Flag.Z (s.y = 0)
  let s := setFlag s Flag.N ((s.y &&& 0x80) ≠ 0)
  (s, 0)

/-- `OLC6502::JMP`. -/
def OLC6502.JMP (s : OLC6502) : OLC6502 × Nat := ({ s with pc := s.addr_abs }, 0)

/-- `OLC6502::JSR`: `pc--`, push high then low byte, jump to `addr_abs`. -/
def OLC6502.JSR (s : OLC6502) : OLC6502 × Nat :=
  let s := { s with pc := (s.pc + 65535) % 65536 }
  let s := s.write (STACK_OFFSET + s.sp) ((s.pc >>> 8) &&& 255)
  let s := { s with sp := (s.sp + 255) % 256 }
  let s := s.write (STACK_OFFSET + s.sp) (s.pc &&& 255)
  let s := { s with sp := (s.sp + 255) % 256 }
  ({ s with pc := s.addr_abs }, 0)

/-- `OLC6502::LDA`. -/
def OLC6502.LDA (s : OLC6502) : OLC6502 × Nat :=
  let s := { s with a := s.read s.addr_abs }
  let s := setFlag s Flag.Z (s.a = 0)
  let s := setFlag s Flag.N ((s.a &&& 0x80) ≠ 0)
  (s, 0)

/-- `OLC6502::LDX`: the source loads `x` from `read(pc)`. -/
def OLC6502.LDX (s : OLC6502) : OLC6502 × Nat :=
  let s := { s with x := s.read s.pc }
  let s := setFlag s Flag.Z (s.x = 0)
  let s := setFlag s Flag.N ((s.x &&& 0x80) ≠ 0)
  (s, 0)

/-- `OLC6502::LDY`. -/
def OLC6502.LDY (s : OLC6502) : OLC6502 × Nat :=
  let s := { s with y := s.read s.addr_abs }
  let s := setFlag s Flag.Z (s.y = 0)
  let s := setFlag s Flag.N ((s.y &&& 0x80) ≠ 0)
  (s, 0)

/-- `OLC6502::LSR`: the source selects the accumulator path by comparing
`lookup[opcode].operate` (not `addrmode`) with `&OLC6502::IMP`, and feeds
`a & 0x01` to Carry on both paths. -/
def OLC6502.LSR (s : OLC6502) : OLC6502 × Nat :=
  if (lookupInstr s.opcode).operate = F.IMP then
    let tmp := s.a >>> 1
    let s0 := setFlag s Flag.C ((s.a &&& 0x01) ≠ 0)
    let s0 := setFlag s0 Flag.Z (tmp = 0)
    let s0 := setFlag s0 Flag.N False
    ({ s0 with a := tmp }, 0)
  else
    let data := s.read s.addr_abs
    let tmp := data >>> 1
    let s0 := setFlag s Flag.C ((s.a &&& 0x01) ≠ 0)
    let s0 := setFlag s0 Flag.Z (tmp = 0)
    let s0 := setFlag s0 Flag.N False
    (s0.write s0.addr_abs tmp, 0)

/-- `OLC6502::NOP`: reports one extra cycle on the six opcodes of its
switch, no state change. -/
def OLC6502.NOP (s : OLC6502) : OLC6502 × Nat :=
  if s.opcode = 0x1C ∨ s.opcode = 0x3C ∨ s.opcode = 0x5C ∨ s.opcode = 0x7C ∨
     s.opcode = 0xDC ∨ s.opcode = 0xFC then (s, 1) else (s, 0)

/-- `OLC6502::ORA`. -/
def OLC6502.ORA (s : OLC6502) : OLC6502 × Nat :=
  let data := s.read s.addr_abs
  let s := { s with a := s.a ||| data }
  let s := setFlag s Flag.Z (s.a = 0)
  let s := setFlag s Flag.N ((s.a &&& 0x80) ≠ 0)
  (s, 0)

/-- `OLC6502::PHA`. -/
def OLC6502.PHA (s : OLC6502) : OLC6502 × Nat :=
  let s := s.write (STACK_OFFSET + s.sp) s.a
  ({ s with sp := (s.sp + 255) % 256 }, 0)

/-- `OLC6502::PHP`: push `status | B | U`, then clear B and U in the live
status register, then decrement the stack pointer. -/
def OLC6502.PHP (s : OLC6502) : OLC6502 × Nat :=
  let s := s.write (STACK_OFFSET + s.sp) (s.status ||| Flag.B ||| Flag.U)
  let s := setFlag s Flag.B False
  let s := setFlag s Flag.U False
  ({ s with sp := (s.sp + 255) % 256 }, 0)

/-- `OLC6502::PLA`. -/
def OLC6502.PLA (s : OLC6502) : OLC6502 × Nat :=
  let s := { s with sp := (s.sp + 1) % 256 }
  let s := { s with a := s.read (STACK_OFFSET + s.sp) }
  let s := setFlag s Flag.Z (s.a = 0)
  let s := setFlag s Flag.N ((s.a &&& 0x80) ≠ 0)
  (s, 0)

/-- `OLC6502::PLP`. -/
def OLC6502.PLP (s : OLC6502) : OLC6502 × Nat :=
  let s := { s with sp := (s.sp + 1) % 256 }
  let s := { s with status := s.read (STACK_OFFSET + s.sp) }
  (setFlag s Flag.U True, 0)

/-- `OLC6502::ROL`: accumulator path selected by the same
`operate == &OLC6502::IMP` comparison as `LSR`. -/
def OLC6502.ROL (s : OLC6502) : OLC6502 × Nat :=
  if (lookupInstr s.opcode).operate = F.IMP then
    let data := s.a
    let tmp := ((data <<< 1) ||| getFlag s Flag.C) % 256
    let s0 := setFlag s Flag.C ((data &&& 0x80) ≠ 0)
    let s0 := setFlag s0 Flag.Z (tmp = 0)
    let s0 := setFlag s0 Flag.N ((tmp &&& 0x80) ≠ 0)
    ({ s0 with a := tmp }, 0)
  else
    let data := s.read s.addr_abs
    let tmp := ((data <<< 1) ||| getFlag s Flag.C) % 256
    let s0 := setFlag s Flag.C ((data &&& 0x80) ≠ 0)
    let s0 := setFlag s0 Flag.Z (tmp = 0)
    let s0 := setFlag s0 Flag.N ((tmp &&& 0x80) ≠ 0)
    (s0.write s0.addr_abs tmp, 0)

/-- `OLC6502::ROR`: accumulator path rotates right; the memory path of the
source shifts left (`data << 1`). -/
def OLC6502.ROR (s : OLC6502) : OLC6502 × Nat :=
  if (lookupInstr s.opcode).operate = F.IMP then
    let data := s.a
    let tmp := ((data >>> 1) ||| (getFlag s Flag.C <<< 7)) % 256
    let s0 := setFlag s Flag.C ((data &&& 0x01) ≠ 0)
    let s0 := setFlag s0 Flag.Z (tmp = 0)
    let s0 := setFlag s0 Flag.N ((tmp &&& 0x80) ≠ 0)
    ({ s0 with a := tmp }, 0)
  else
    let data := s.read s.addr_abs
    let tmp := ((data <<< 1) ||| (getFlag s Flag.C <<< 7)) % 256
    let s0 := setFlag s Flag.C ((data &&& 0x01) ≠ 0)
    let s0 := setFlag s0 Flag.Z (tmp = 0)
    let s0 := setFlag s0 Flag.N ((tmp &&& 0x80) ≠ 0)
    (s0.write s0.addr_abs tmp, 0)

/-- `OLC6502::RTI`: pop status (clearing B and U), then pop `pc`. -/
def OLC6502.RTI (s : OLC6502) : OLC6502 × Nat :=
  let s := { s with sp := (s.sp + 1) % 256 }
  let s := { s with status := s.read (STACK_OFFSET + s.sp) }
  let s := { s with status := s.status &&& (255 ^^^ Flag.B) }
  let s := { s with status := s.status &&& (255 ^^^ Flag.U) }
  let s := { s with sp := (s.sp + 1) % 256 }
  let lo := s.read (STACK_OFFSET + s.sp)
  let s := { s with sp := (s.sp + 1) % 256 }
  let hi := s.read (STACK_OFFSET + s.sp)
  ({ s with pc := (hi <<< 8) ||| lo }, 0)

/-- `OLC6502::RTS`: pop low then high byte, then `pc++`. -/
def OLC6502.RTS (s : OLC6502) : OLC6502 × Nat :=
  let s := { s with sp := (s.sp + 1) % 256 }
  let lo := s.read (STACK_OFFSET + s.sp)
  let s := { s with sp := (s.sp + 1) % 256 }
  let hi := s.read (STACK_OFFSET + s.sp)
  ({ s with pc := (((hi <<< 8) ||| lo) + 1) % 65536 }, 0)

/-- `OLC6502::SBC`: the source adds the raw operand (no complement),
sets Carry from `temp & 0x00FF`, and tests overflow on `(a + data)`. -/
def OLC6502.SBC (s : OLC6502) : OLC6502 × Nat :=
  let data := s.read s.addr_abs
  let temp := s.a + data + getFlag s Flag.C
  let s := setFlag s Flag.C ((temp &&& 255) ≠ 0)
  let s := setFlag s Flag.Z ((temp &&& 255) = 0)
  let s := setFlag s Flag.V (((s.a + data) &&& (s.a ^^^ temp) &&& 0x80) ≠ 0)
  let s := setFlag s Flag.N ((temp &&& 0x80) ≠ 0)
  ({ s with a := temp &&& 255 }, 0)

/-- `OLC6502::SEC`. -/
def OLC6502.SEC (s : OLC6502) : OLC6502 × Nat := (setFlag s Flag.C True, 0)

/-- `OLC6502::SED`. -/
def OLC6502.SED (s : OLC6502) : OLC6502 × Nat := (setFlag s Flag.D True, 0)

/-- `OLC6502::SEI`. -/
def OLC6502.SEI (s : OLC6502) : OLC6502 × Nat := (setFlag s Flag.I True, 0)

/-- `OLC6502::STA`. -/
def OLC6502.STA (s : OLC6502) : OLC6502 × Nat := (s.write s.addr_abs s.a, 0)

/-- `OLC6502::STX`. -/
def OLC6502.STX (s : OLC6502) : OLC6502 × Nat := (s.write s.addr_abs s.x, 0)

/-- `OLC6502::STY`. -/
def OLC6502.STY (s : OLC6502) : OLC6502 × Nat := (s.write s.addr_abs s.y, 0)

/-- `OLC6502::TAX`: the source loads `x` from `read(addr_abs)`. -/
def OLC6502.TAX (s : OLC6502) : OLC6502 × Nat :=
  let s := { s with x := s.read s.addr_abs }
  let s := setFlag s Flag.Z (s.x = 0)
  let s := setFlag s Flag.N ((s.x &&& 0x80) ≠ 0)
  (s, 0)

/-- `OLC6502::TAY`: the source loads `y` from `read(addr_abs)`. -/
def OLC6502.TAY (s : OLC6502) : OLC6502 × Nat :=
  let s := { s with y := s.read s.addr_abs }
  let s := setFlag s Flag.Z (s.y = 0)
  let s := setFlag s Flag.N ((s.y &&& 0x80) ≠ 0)
  (s, 0)

/-- `OLC6502::TSX`. -/
def OLC6502.TSX (s : OLC6502) : OLC6502 × Nat :=
  let s := { s with x := s.sp }
  let s := setFlag s Flag.Z (s.x = 0)
  let s := setFlag s Flag.N ((s.x &&& 0x80) ≠ 0)
  (s, 0)

/-- `OLC6502::TXA`. -/
def OLC6502.TXA (s : OLC6502) : OLC6502 × Nat :=
  let s := { s with a := s.x }
  let s := setFlag s Flag.Z (s.a = 0)
  let s := setFlag s Flag.N ((s.a &&& 0x80) ≠ 0)
  (s, 0)

/-- `OLC6502::TXS`. -/
def OLC6502.TXS (s : OLC6502) : OLC6502 × Nat := ({ s with sp := s.x }, 0)

/-- `OLC6502::TYA`: copies `y` to `a` without touching any flag. -/
def OLC6502.TYA (s : OLC6502) : OLC6502 × Nat := ({ s with a := s.y }, 0)

/-- `OLC6502::XXX`: illegal-opcode placeholder. -/
def OLC6502.XXX (s : OLC6502) : OLC6502 × Nat := (s, 0)

/-- Dispatch on a stored member-function tag, covering both table columns. -/
def exec (f : F) (s : OLC6502) : OLC6502 × Nat :=
  match f with
  | .IMP => s.IMP | .IMM => s.IMM | .ZP0 => s.ZP0 | .ZPX => s.ZPX
  | .ZPY => s.ZPY | .REL => s.REL | .ABS => s.ABS | .ABX => s.ABX
  | .ABY => s.ABY | .IND => s.IND | .IZX => s.IZX | .IZY => s.IZY
  | .ADC => s.ADC | .AND => s.AND | .ASL => s.ASL | .BCC => s.BCC
  | .BCS => s.BCS | .BEQ => s.BEQ | .BIT => s.BIT | .BMI => s.BMI
  | .BNE => s.BNE | .BPL => s.BPL | .BRK => s.BRK | .BVC => s.BVC
  | .BVS => s.BVS | .CLC => s.CLC | .CLD => s.CLD | .CLI => s.CLI
  | .CLV => s.CLV | .CMP => s.CMP | .CPX => s.CPX | .CPY => s.CPY
  | .DEC => s.DEC | .DEX => s.DEX | .DEY => s.DEY | .EOR => s.EOR
  | .INC => s.INC | .INX => s.INX | .INY => s.INY | .JMP => s.JMP
  | .JSR => s.JSR | .LDA => s.LDA | .LDX => s.LDX | .LDY => s.LDY
  | .LSR => s.LSR | .NOP => s.NOP | .ORA => s.ORA | .PHA => s.PHA
  | .PHP => s.PHP | .PLA => s.PLA | .PLP => s.PLP | .ROL => s.ROL
  | .ROR => s.ROR | .RTI => s.RTI | .RTS => s.RTS | .SBC => s.SBC
  | .SEC => s.SEC | .SED => s.SED | .SEI => s.SEI | .STA => s.STA
  | .STX => s.STX | .STY => s.STY | .TAX => s.TAX | .TAY => s.TAY
  | .TSX => s.TSX | .TXA => s.TXA | .TXS => s.TXS | .TYA => s.TYA
  | .XXX => s.XXX

/-- The opcode byte fetched at the instruction boundary: `read(pc)`. -/
def fetchOpcode (s : OLC6502) : Nat := s.read s.pc

/-- The boundary prologue of `OLC6502::clock`: latch the opcode, force the
Unused flag, advance `pc`, and load the tabulated base cycle count. -/
def afterFetch (s : OLC6502) : OLC6502 :=
  let op := fetchOpcode s
  let s := setFlag { s with opcode := op } Flag.U True
  let s := { s with pc := (s.pc + 1) % 65536 }
  { s with cycles := (lookupInstr op).cycles }

/-- The addressing-mode resolver invocation of `OLC6502::clock`
(`additional_cycle1` is the second component). -/
def addrStep (s : OLC6502) : OLC6502 × Nat :=
  exec (lookupInstr (fetchOpcode s)).addrmode (afterFetch s)

/-- The operation invocation of `OLC6502::clock` (`additional_cycle2` is
the second component). -/
def opStep (s : OLC6502) : OLC6502 × Nat :=
  exec (lookupInstr (fetchOpcode s)).operate (addrStep s).1

/-- The whole `cycles == 0` branch of `OLC6502::clock`: prologue, resolver,
operation, `cycles += (additional_cycle1 & additional_cycle2)`, and the
final re-forcing of the Unused flag. -/
def boundary (s : OLC6502) : OLC6502 :=
  let r1 := addrStep s
  let r2 := opStep s
  setFlag { r2.1 with cycles := (r2.1.cycles + (r1.2 &&& r2.2)) % 256 } Flag.U True

/-- The unconditional epilogue of `OLC6502::clock`:
`cycle_count++; cycles--` (uint8 decrement). -/
def tick (s : OLC6502) : OLC6502 :=
  { s with cycle_count := s.cycle_count + 1, cycles := (s.cycles + 255) % 256 }

/-- `OLC6502::clock`. -/
def OLC6502.clock (s : OLC6502) : OLC6502 :=
  tick (if s.cycles = 0 then boundary s else s)

/-- `OLC6502::complete`: `cycles == 0`. -/
def OLC6502.complete (s : OLC6502) : Bool := s.cycles == 0

/-- `OLC6502::reset`. -/
def OLC6502.reset (s : OLC6502) : OLC6502 :=
  let s := { s with addr_abs := 0xFFFC }
  let lo := s.read (s.addr_abs + 0)
  let hi := s.read (s.addr_abs + 1)
  { s with pc := (hi <<< 8) ||| lo, a := 0, x := 0, y := 0, sp := 0xFC,
           status := 0 ||| Flag.U, addr_abs := 0, addr_rel := 0, cycles := 8 }

/-- `OLC6502::irq`: the whole body is guarded by `getFlag(I) == 0`. -/
def OLC6502.irq (s : OLC6502) : OLC6502 :=
  if getFlag s Flag.I = 0 then
    let s := s.write (STACK_OFFSET + s.sp) ((s.pc >>> 8) &&& 255)
    let s := { s with sp := (s.sp + 255) % 256 }
    let s := s.write (STACK_OFFSET + s.sp) (s.pc &&& 255)
    let s := { s with sp := (s.sp + 255) % 256 }
    let s := setFlag s Flag.B False
    let s := setFlag s Flag.I True
    let s := setFlag s Flag.U True
    let s := s.write (STACK_OFFSET + s.sp) s.status
    let s := { s with sp := (s.sp + 255) % 256 }
    let s := { s with addr_abs := 0xFFFE }
    let lo := s.read s.addr_abs
    let hi := s.read (s.addr_abs + 1)
    { s with pc := (hi <<< 8) ||| lo, cycles := 7 }
  else s

/-- `OLC6502::nmi`: the same context save, uncondit. -/
def OLC6502.nmi (s : OLC6502) : OLC6502 :=
  let s := s.write (STACK_OFFSET + s.sp) ((s.pc >>> 8) &&& 255)
  let s := { s with sp := (s.sp + 255) % 256 }
  let s := s.write (STACK_OFFSET + s.sp) (s.pc &&& 255)
  let s := { s with sp := (s.sp + 255) % 256 }
  let s := setFlag s Flag.B False
  let s := setFlag s Flag.I True
  let s := setFlag s Flag.U True
  let s := s.write (STACK_OFFSET + s.sp) s.status
  let s := { s with sp := (s.sp + 255) % 256 }
  let s := { s with addr_abs := 0xFFFA }
  let lo := s.read s.addr_abs
  let hi := s.read (s.addr_abs + 1)
  { s with pc := (hi <<< 8) ||| lo, cycles := 7 }

/-- The externally driven entry points of the core. -/
inductive Ev where
  | clock | irq | nmi | reset
  deriving DecidableEq

/-- One externally observable step of the core, as a relation.  The
constructors mirror the branch structure of the source: `clock` splits on
the instruction-boundary test `cycles == 0`, `irq` on the InterruptDisable
mask; `nmi` and `reset` are unconditional. -/
inductive Step : Ev → OLC6502 → OLC6502 → Prop where
  | clock_boundary {s : OLC6502} : s.cycles = 0 → Step .clock s (tick (boundary s))
  | clock_mid {s : OLC6502} : s.cycles ≠ 0 → Step .clock s (tick s)
  | irq_taken {s : OLC6502} : getFlag s Flag.I = 0 → Step .irq s s.irq
  | irq_masked {s : OLC6502} : getFlag s Flag.I ≠ 0 → Step .irq s s
  | nmi_step {s : OLC6502} : Step .nmi s s.nmi
  | reset_step {s : OLC6502} : Step .reset s s.reset

/-- A finite sequence of `clock`/`irq`/`nmi`/`reset` invocations. -/
inductive Run : List Ev → OLC6502 → OLC6502 → Prop where
  | nil {s : OLC6502} : Run [] s s
  | cons {e : Ev} {es : List Ev} {s t u : OLC6502} :
      Step e s t → Run es t u → Run (e :: es) s u

/-- The cycle charge the shared branch body applies: 0 when the branch is
not taken, 1 when taken, 2 when taken onto a different page. -/
def condBump (s : OLC6502) (cond : Prop) [Decidable cond] : Nat :=
  if cond then
    if (((s.pc + s.addr_rel) % 65536) &&& 0xFF00) ≠ (s.pc &&& 0xFF00) then 2 else 1
  else 0

/-- The direct `cycles++` charges an operation performs, characterised
per operation tag: only the eight branch bodies touch `cycles`, each
gated on its own flag test. -/
def cyclesBump (f : F) (s : OLC6502) : Nat :=
  match f with
  | .BCC => condBump s (getFlag s Flag.C = 0)
  | .BCS => condBump s (getFlag s Flag.C = 1)
  | .BEQ => condBump s (getFlag s Flag.Z = 1)
  | .BMI => condBump s (getFlag s Flag.N = 1)
  | .BNE => condBump s (getFlag s Flag.N = 0)
  | .BPL => condBump s (getFlag s Flag.N = 0)
  | .BVC => condBump s (getFlag s Flag.V = 0)
  | .BVS => condBump s (getFlag s Flag.V = 1)
  | _ => 0

/-- State for the ADC vector `0x50 + 0x50`, carry-in clear. -/
def c1sA : OLC6502 :=
  { a := 0x50, addr_abs := 0x10, ram := fun addr => if addr = 0x10 then 0x50 else 0 }

/-- State for the ADC vector `0xFF + 0x01`, carry-in clear. -/
def c1sB : OLC6502 :=
  { a := 0xFF, addr_abs := 0x10, ram := fun addr => if addr = 0x10 then 0x01 else 0 }

/-- State for SBC with accumulator 5, operand 3, carry-in set. -/
def c3s : OLC6502 :=
  { a := 5, status := Flag.C, addr_abs := 0x10,
    ram := fun addr => if addr = 0x10 then 3 else 0 }

/-- CMP at the equality point: accumulator 5 against operand 5. -/
def c4s : OLC6502 :=
  { a := 5, addr_abs := 0x10, ram := fun addr => if addr = 0x10 then 5 else 0 }

/-- CPX at the equality point. -/
def c4sx : OLC6502 :=
  { x := 5, addr_abs := 0x10, ram := fun addr => if addr = 0x10 then 5 else 0 }

/-- CPY at the equality point. -/
def c4sy : OLC6502 :=
  { y := 5, addr_abs := 0x10, ram := fun addr => if addr = 0x10 then 5 else 0 }

/-- State for Relative addressing with a positive displacement byte. -/
def c5s : OLC6502 :=
  { pc := 0x8000,
    ram := fun addr => if addr = 0x8000 then 0x7F else if addr = 0x8001 then 0x80 else 0 }

/-- Same RAM, program counter on the negative displacement byte. -/
def c5sb : OLC6502 :=
  { pc := 0x8001,
    ram := fun addr => if addr = 0x8000 then 0x7F else if addr = 0x8001 then 0x80 else 0 }

/-- IZY probe with X = 0, Y = 1 and a zero-page target of 0x00FF, so the
specified `+ Y` would cross a page. -/
def c6s : OLC6502 :=
  { pc := 0, x := 0, y := 1,
    ram := fun addr => if addr = 0 then 0x10 else if addr = 0x10 then 0xFF else 0 }

/-- IZY probe with a nonzero X, separating the verbatim pointer 0x10
(bytes 0xAA/0xBB) from the X-offset pointer 0x15 (bytes 0x34/0x12). -/
def c6sx : OLC6502 :=
  { pc := 0, x := 5, y := 0x20,
    ram := fun addr =>
      if addr = 0 then 0x10 else if addr = 0x15 then 0x34 else if addr = 0x16 then 0x12
      else if addr = 0x10 then 0xAA else if addr = 0x11 then 0xBB else 0 }

/-- PHP probe with every status bit set. -/
def c7s : OLC6502 := { status := 0xFF, sp := 0xFD }

/-- Whether a table tag is one of the eight branch operations. -/
def isBranch (f : F) : Bool :=
  match f with
  | .BCC | .BCS | .BEQ | .BMI | .BNE | .BPL | .BVC | .BVS => true
  | _ => false

/-- Boundary state for the witness run of the clock engine: all-zero RAM,
so the fetched opcode is 0x00 (BRK, Immediate, 7 base cycles). -/
def c2w : OLC6502 := {}

/-- Boundary state fetching a taken BPL: opcode 0x10 at pc 0, displacement
5, Negative flag clear. -/
def c2cex : OLC6502 :=
  { pc := 0, ram := fun addr => if addr = 0 then 0x10 else if addr = 1 then 5 else 0 }

/-- Initial state for the determinism witness run. -/
def c9s : OLC6502 :=
  { pc := 0x0200, status := 0xFF, sp := 0xFD,
    ram := fun addr => if addr = 0xFFFC then 0x34 else if addr = 0xFFFD then 0x12 else 0 }

theorem read_lt (s : OLC6502) (addr : Nat) : s.read addr < 256 :=
  Nat.mod_lt _ (by norm_num)

theorem shiftLeft_lor_eq_add (n : Nat) :
    ∀ x y : Nat, x < 2 ^ n → (y <<< n) ||| x = y * 2 ^ n + x := by
  induction n with
  | zero =>
    intro x y hx
    have hx0 : x = 0 := Nat.lt_one_iff.mp hx
    subst hx0
    simp [Nat.shiftLeft_eq]
  | succ n ih =>
    intro x y hx
    have hbit : Nat.bit x.bodd x.div2 = x := Nat.bit_decomp x
    have hdiv : x.div2 < 2 ^ n := by
      have h2 : (2 : Nat) ^ (n + 1) = 2 ^ n * 2 := pow_succ 2 n
      have : x.div2 = x / 2 := Nat.div2_val x
      omega
    calc (y <<< (n + 1)) ||| x
        = Nat.bit false (y <<< n) ||| Nat.bit x.bodd x.div2 := by
          rw [hbit]
          congr 1
          simp [Nat.shiftLeft_eq, Nat.bit, pow_succ]
          ring
      _ = Nat.bit (false || x.bodd) ((y <<< n) ||| x.div2) :=
          Nat.lor_bit false (y <<< n) x.bodd x.div2
      _ = Nat.bit x.bodd (y * 2 ^ n + x.div2) := by rw [Bool.false_or, ih x.div2 y hdiv]
      _ = y * 2 ^ (n + 1) + x := by
          have hb : Nat.bit x.bodd (y * 2 ^ n + x.div2) =
              2 * (y * 2 ^ n + x.div2) + x.bodd.toNat := by
            cases x.bodd <;> simp [Nat.bit]
          have hx2 : 2 * x.div2 + x.bodd.toNat = x := by
            have := Nat.bit_decomp x
            cases hxb : x.bodd <;> simp [Nat.bit, hxb] at this ⊢ <;> omega
          have h3 : y * 2 ^ (n + 1) = 2 * (y * 2 ^ n) := by
            rw [pow_succ]
            ring
          omega

/-- Claim C1: the spec requires `0x50 + 0x50` (carry-in clear) to produce
accumulator 0xA0 with Carry 0, Overflow 1, Negative 1, Zero 0, and
`0xFF + 0x01` to produce accumulator 0x00 with Carry 1, Zero 1, Overflow 0.
The code reproduces everything except the Overflow flag: its overflow test
complements the arithmetic sum `a + data` instead of the XOR `a ^ data`,
so it reports Overflow 0 on the first vector and Overflow 1 on the second. -/
theorem adc_known_vectors_code_bug :
    ((c1sA.ADC).1.a = 0xA0 ∧ getFlag (c1sA.ADC).1 Flag.C = 0 ∧
     getFlag (c1sA.ADC).1 Flag.N = 1 ∧ getFlag (c1sA.ADC).1 Flag.Z = 0 ∧
     getFlag (c1sA.ADC).1 Flag.V = 0) ∧
    ((c1sB.ADC).1.a = 0x00 ∧ getFlag (c1sB.ADC).1 Flag.C = 1 ∧
     getFlag (c1sB.ADC).1 Flag.Z = 1 ∧ getFlag (c1sB.ADC).1 Flag.V = 1) := by
  decide

/-- Claim C3: the spec requires SBC to add the bitwise-complemented operand
and to set Carry exactly when no borrow occurred.  The code adds the raw
operand — on accumulator 5, operand 3, carry-in 1 it produces 9 where the
complemented addition `(5 + (3 ^ 0xFF) + 1) & 0xFF` produces 2 — and it
sets Carry from `temp & 0x00FF`, not from a borrow test. -/
theorem sbc_raw_operand_code_bug :
    (c3s.SBC).1.a = 9 ∧ getFlag (c3s.SBC).1 Flag.C = 1 ∧
    (c3s.a + (c3s.read c3s.addr_abs ^^^ 0xFF) + getFlag c3s Flag.C) &&& 255 = 2 := by
  decide

/-- Claim C4: the spec requires Carry = register ≥ memory for CMP/CPX/CPY.
The code tests the strict `register > memory`, so at the equality point
(register 5, operand 5) all three compares clear Carry where the claim
requires Carry 1; Zero, Negative, and the compared registers behave as
claimed. -/
theorem compare_equal_carry_code_bug :
    (getFlag (c4s.CMP).1 Flag.C = 0 ∧ getFlag (c4s.CMP).1 Flag.Z = 1 ∧
     getFlag (c4s.CMP).1 Flag.N = 0 ∧ (c4s.CMP).1.a = c4s.a) ∧
    (getFlag (c4sx.CPX).1 Flag.C = 0 ∧ getFlag (c4sx.CPX).1 Flag.Z = 1 ∧
     (c4sx.CPX).1.x = c4sx.x) ∧
    (getFlag (c4sy.CPY).1 Flag.C = 0 ∧ getFlag (c4sy.CPY).1 Flag.Z = 1 ∧
     (c4sy.CPY).1.y = c4sy.y) := by
  decide

/-- Claim C5: the spec requires the Relative resolver to advance the
program counter by exactly 1 after reading the displacement.  The code
latches and sign-extends the displacement as claimed but contains no
`pc++`: the program counter is returned unchanged. -/
theorem rel_missing_pc_advance_code_bug :
    (c5s.REL).1.pc = c5s.pc ∧ (c5s.REL).1.pc ≠ (c5s.pc + 1) % 65536 ∧
    (c5s.REL).1.addr_rel = 0x7F ∧ (c5sb.REL).1.addr_rel = 0xFF80 := by
  decide

/-- Claim C6: the spec requires IZY to read the zero-page pointer verbatim,
add Y to the 16-bit target, and report the page-cross extra cycle.  The
code offsets the pointer by X, never adds Y, and always returns 0: with
pointer byte 0x10, target bytes 0xFF/0x00 and Y = 1 it yields address
0x00FF and 0 extra cycles where the claim requires 0x0100 and 1; with
X = 5 it reads the target through pointer 0x15 instead of 0x10. -/
theorem izy_ignores_y_code_bug :
    ((c6s.IZY).1.addr_abs = 0x00FF ∧ (c6s.IZY).2 = 0 ∧
     (256 * c6s.read 0x11 + c6s.read 0x10 + c6s.y) % 65536 = 0x0100) ∧
    ((c6sx.IZY).1.addr_abs = 0x1234 ∧
     (256 * c6sx.read 0x11 + c6sx.read 0x10 + c6sx.y) % 65536 = 0xBBCA) := by
  decide

theorem and_two_pow_pos_iff (st k : Nat) : 0 < st &&& 2 ^ k ↔ st.testBit k = true := by
  rw [Nat.and_two_pow]
  cases h : st.testBit k <;> simp [Nat.pos_pow_of_pos]

theorem getFlag_eq (s : OLC6502) (k : Nat) :
    getFlag s (2 ^ k) = if s.status.testBit k then 1 else 0 := by
  unfold getFlag
  rcases h : s.status.testBit k with _ | _ <;>
    rw [Nat.and_two_pow, h] <;> simp

theorem setFlag_status_testBit (s : OLC6502) {j : Nat} (v : Prop) [Decidable v]
    {k : Nat} (hk : k < 8) (hjk : k ≠ j) :
    (setFlag s (2 ^ j) v).status.testBit k = s.status.testBit k := by
  unfold setFlag
  have h255 : ((255 : Nat)).testBit k = true := by
    have : (255 : Nat) = 2 ^ 8 - 1 := by norm_num
    rw [this, Nat.testBit_two_pow_sub_one]
    simpa using hk
  split <;>
    simp [Nat.testBit_lor, Nat.testBit_land, Nat.testBit_xor,
      Nat.testBit_two_pow_of_ne (Ne.symm hjk), h255]

theorem getFlag_setFlag_ne (s : OLC6502) {j k : Nat} (v : Prop) [Decidable v]
    (hk : k < 8) (hjk : k ≠ j) :
    getFlag (setFlag s (2 ^ j) v) (2 ^ k) = getFlag s (2 ^ k) := by
  rw [getFlag_eq, getFlag_eq, setFlag_status_testBit s v hk hjk]

theorem getFlag_setFlag_self_true (s : OLC6502) (k : Nat) :
    getFlag (setFlag s (2 ^ k) True) (2 ^ k) = 1 := by
  rw [getFlag_eq]
  unfold setFlag
  simp [Nat.testBit_lor, Nat.testBit_two_pow_self]

theorem lor_byte_lt {a b : Nat} (ha : a < 256) (hb : b < 256) : a ||| b < 256 := by
  have h : (256 : Nat) = 2 ^ 8 := by norm_num
  rw [h] at ha hb ⊢
  exact Nat.or_lt_two_pow ha hb

/-- Claim C7 counterexample: starting from status 0xFF (Break and Unused
both set), after `PHP` the live Break bit reads 0, not its pre-push value
1, and the live Unused bit reads 0 rather than remaining set. -/
theorem php_counterexample :
    getFlag c7s Flag.B = 1 ∧ getFlag (c7s.PHP).1 Flag.B = 0 ∧
    getFlag c7s Flag.U = 1 ∧ getFlag (c7s.PHP).1 Flag.U = 0 := by
  decide

/-- Claim C7 (amended): `PHP` pushes `status | B | U` at the stack slot and
decrements the stack pointer by 1, but afterwards the live status register
has both the Break and the Unused bit cleared (all other status bits and
the remaining registers are untouched). -/
theorem php_spec (s : OLC6502) (hst : s.status < 256) (hsp : s.sp < 256) :
    (s.PHP).1.ram (STACK_OFFSET + s.sp) = (s.status ||| Flag.B ||| Flag.U) ∧
    (s.PHP).1.sp = (s.sp + 255) % 256 ∧
    getFlag (s.PHP).1 Flag.B = 0 ∧ getFlag (s.PHP).1 Flag.U = 0 ∧
    (s.PHP).1.status = s.status &&& 0xCF ∧
    (s.PHP).1.a = s.a ∧ (s.PHP).1.x = s.x ∧ (s.PHP).1.y = s.y ∧
    (s.PHP).1.pc = s.pc := by
  have haddr : (STACK_OFFSET + s.sp) % 65536 = STACK_OFFSET + s.sp := by
    unfold STACK_OFFSET
    omega
  have hval : (s.status ||| Flag.B ||| Flag.U) < 256 :=
    lor_byte_lt (lor_byte_lt hst (by decide)) (by decide)
  have hstatus : (s.PHP).1.status = s.status &&& 0xCF := by
    show s.status &&& (255 ^^^ Flag.B) &&& (255 ^^^ Flag.U) = s.status &&& 0xCF
    rw [Nat.land_assoc]
    congr 1
  refine ⟨?_, rfl, ?_, ?_, hstatus, rfl, rfl, rfl, rfl⟩
  · show (if STACK_OFFSET + s.sp = (STACK_OFFSET + s.sp) % 65536
        then (s.status ||| Flag.B ||| Flag.U) % 256 else s.ram (STACK_OFFSET + s.sp)) = _
    rw [haddr, if_pos rfl, Nat.mod_eq_of_lt hval]
  · show getFlag (s.PHP).1 Flag.B = 0
    have h16 : (Flag.B : Nat) = 2 ^ 4 := rfl
    rw [h16, getFlag_eq]
    have : (s.PHP).1.status.testBit 4 = false := by
      rw [hstatus, Nat.testBit_land]
      simp [show Nat.testBit 207 4 = false from by decide]
    rw [this]
    simp
  · have h32 : (Flag.U : Nat) = 2 ^ 5 := rfl
    rw [h32, getFlag_eq]
    have : (s.PHP).1.status.testBit 5 = false := by
      rw [hstatus, Nat.testBit_land]
      simp [show Nat.testBit 207 5 = false from by decide]
    rw [this]
    simp

/-- Claim C7 witness: the amended statement instantiated at the concrete
all-bits-set starting state. -/
theorem php_spec_witness :
    c7s.status < 256 ∧ c7s.sp < 256 ∧
    ((c7s.PHP).1.ram (STACK_OFFSET + c7s.sp) = (c7s.status ||| Flag.B ||| Flag.U) ∧
     (c7s.PHP).1.sp = (c7s.sp + 255) % 256 ∧
     getFlag (c7s.PHP).1 Flag.B = 0 ∧ getFlag (c7s.PHP).1 Flag.U = 0 ∧
     (c7s.PHP).1.status = c7s.status &&& 0xCF ∧
     (c7s.PHP).1.a = c7s.a ∧ (c7s.PHP).1.x = c7s.x ∧ (c7s.PHP).1.y = c7s.y ∧
     (c7s.PHP).1.pc = c7s.pc) :=
  ⟨by decide, by decide, php_spec c7s (by decide) (by decide)⟩

/-- Claim C8: for every prior core state and Bus content, `reset()` yields
stack pointer 0xFC, status with only the Unused bit set, zeroed A/X/Y, a
program counter assembled from the Bus bytes at 0xFFFC (low) and 0xFFFD
(high), cleared `addr_abs`/`addr_rel`, and a pending cycle cost of 8. -/
theorem reset_spec (s : OLC6502) :
    (OLC6502.reset s).sp = 0xFC ∧
    (OLC6502.reset s).status = Flag.U ∧
    (OLC6502.reset s).a = 0 ∧ (OLC6502.reset s).x = 0 ∧ (OLC6502.reset s).y = 0 ∧
    (OLC6502.reset s).pc = 256 * s.read 0xFFFD + s.read 0xFFFC ∧
    (OLC6502.reset s).addr_abs = 0 ∧ (OLC6502.reset s).addr_rel = 0 ∧
    (OLC6502.reset s).cycles = 8 := by
  have h8 : ((2 : Nat) ^ 8) = 256 := by norm_num
  have h := shiftLeft_lor_eq_add 8 (s.read 0xFFFC) (s.read 0xFFFD)
    (by rw [h8]; exact read_lt s 0xFFFC)
  refine ⟨rfl, rfl, rfl, rfl, rfl, ?_, rfl, rfl, rfl⟩
  show (s.read (0xFFFC + 1)) <<< 8 ||| s.read (0xFFFC + 0) =
    256 * s.read 0xFFFD + s.read 0xFFFC
  norm_num
  rw [h8] at h
  omega

theorem setFlag_pc (s : OLC6502) (f : Nat) (v : Prop) [Decidable v] :
    (setFlag s f v).pc = s.pc := by
  unfold setFlag
  split <;> rfl

theorem setFlag_addr_rel (s : OLC6502) (f : Nat) (v : Prop) [Decidable v] :
    (setFlag s f v).addr_rel = s.addr_rel := by
  unfold setFlag
  split <;> rfl

theorem setFlag_cycles (s : OLC6502) (f : Nat) (v : Prop) [Decidable v] :
    (setFlag s f v).cycles = s.cycles := by
  unfold setFlag
  split <;> rfl

theorem setFlag_cycle_count (s : OLC6502) (f : Nat) (v : Prop) [Decidable v] :
    (setFlag s f v).cycle_count = s.cycle_count := by
  unfold setFlag
  split <;> rfl

theorem setFlag_opcode (s : OLC6502) (f : Nat) (v : Prop) [Decidable v] :
    (setFlag s f v).opcode = s.opcode := by
  unfold setFlag
  split <;> rfl

/-- Claim C10: the source bodies of `BNE` and `BPL` are identical — both
test `getFlag(N) == 0` — so the two operations are extensionally equal,
branch exactly when the Negative flag reads 0, leave every register and
the status byte unchanged, and their program-counter, cycle and
extra-cycle outcome is unaffected by the Zero flag. -/
theorem bne_bpl_extensional (s : OLC6502) :
    OLC6502.BNE s = OLC6502.BPL s ∧
    (OLC6502.BNE s).1.pc =
      (if getFlag s Flag.N = 0 then (s.pc + s.addr_rel) % 65536 else s.pc) ∧
    (OLC6502.BNE s).1.status = s.status ∧ (OLC6502.BNE s).1.a = s.a ∧
    (OLC6502.BNE s).1.x = s.x ∧ (OLC6502.BNE s).1.y = s.y ∧
    (OLC6502.BNE s).1.sp = s.sp ∧ (OLC6502.BNE s).2 = 0 ∧
    (∀ b : Bool,
      (OLC6502.BNE (setFlag s Flag.Z (b = true))).1.pc = (OLC6502.BNE s).1.pc ∧
      (OLC6502.BNE (setFlag s Flag.Z (b = true))).1.cycles = (OLC6502.BNE s).1.cycles ∧
      (OLC6502.BNE (setFlag s Flag.Z (b = true))).2 = (OLC6502.BNE s).2) := by
  have hN : ∀ b : Bool, getFlag (setFlag s Flag.Z (b = true)) Flag.N = getFlag s Flag.N := by
    intro b
    have hZ : (Flag.Z : Nat) = 2 ^ 1 := rfl
    have hNp : (Flag.N : Nat) = 2 ^ 7 := rfl
    rw [hZ, hNp]
    exact getFlag_setFlag_ne s (b = true) (by norm_num) (by norm_num)
  have key : ∀ t : OLC6502, t.pc = s.pc → t.addr_rel = s.addr_rel → t.cycles = s.cycles →
      getFlag t Flag.N = getFlag s Flag.N →
      ((OLC6502.BNE t).1.pc = (OLC6502.BNE s).1.pc ∧
       (OLC6502.BNE t).1.cycles = (OLC6502.BNE s).1.cycles ∧
       (OLC6502.BNE t).2 = (OLC6502.BNE s).2) := by
    intro t hpc hrel hcyc hflag
    unfold OLC6502.BNE branchOp
    simp only [hpc, hrel, hcyc, hflag]
    by_cases h : getFlag s Flag.N = 0 <;> simp [h, hpc, hcyc]
  refine ⟨rfl, ?_, ?_, ?_, ?_, ?_, ?_, ?_, ?_⟩
  · by_cases h : getFlag s Flag.N = 0 <;> simp [OLC6502.BNE, branchOp, h]
  · by_cases h : getFlag s Flag.N = 0 <;> simp [OLC6502.BNE, branchOp, h]
  · by_cases h : getFlag s Flag.N = 0 <;> simp [OLC6502.BNE, branchOp, h]
  · by_cases h : getFlag s Flag.N = 0 <;> simp [OLC6502.BNE, branchOp, h]
  · by_cases h : getFlag s Flag.N = 0 <;> simp [OLC6502.BNE, branchOp, h]
  · by_cases h : getFlag s Flag.N = 0 <;> simp [OLC6502.BNE, branchOp, h]
  · by_cases h : getFlag s Flag.N = 0 <;> simp [OLC6502.BNE, branchOp, h]
  · intro b
    exact key (setFlag s Flag.Z (b = true)) (setFlag_pc s Flag.Z (b = true))
      (setFlag_addr_rel s Flag.Z (b = true)) (setFlag_cycles s Flag.Z (b = true)) (hN b)

theorem branchOp_fst_opcode (s : OLC6502) (c : Prop) [Decidable c] :
    ((branchOp s c).1).opcode = s.opcode := by
  unfold branchOp
  split <;> rfl

theorem branchOp_fst_cycle_count (s : OLC6502) (c : Prop) [Decidable c] :
    ((branchOp s c).1).cycle_count = s.cycle_count := by
  unfold branchOp
  split <;> rfl

theorem branchOp_snd (s : OLC6502) (c : Prop) [Decidable c] :
    (branchOp s c).2 = 0 := by
  unfold branchOp
  split <;> rfl

theorem branchOp_fst_cycles (s : OLC6502) (c : Prop) [Decidable c] (h : s.cycles < 256) :
    ((branchOp s c).1).cycles = (s.cycles + condBump s c) % 256 := by
  unfold branchOp condBump
  split
  · dsimp only
    split <;> omega
  · dsimp only
    omega

theorem exec_opcode (f : F) (s : OLC6502) : ((exec f s).1).opcode = s.opcode := by
  cases f <;>
    simp only [exec, OLC6502.IMP, OLC6502.IMM, OLC6502.ZP0, OLC6502.ZPX, OLC6502.ZPY,
      OLC6502.REL, OLC6502.ABS, OLC6502.ABX, OLC6502.ABY, OLC6502.IND, OLC6502.IZX,
      OLC6502.IZY, OLC6502.ADC, OLC6502.AND, OLC6502.ASL, OLC6502.BCC, OLC6502.BCS,
      OLC6502.BEQ, OLC6502.BIT, OLC6502.BMI, OLC6502.BNE, OLC6502.BPL, OLC6502.BRK,
      OLC6502.BVC, OLC6502.BVS, OLC6502.CLC, OLC6502.CLD, OLC6502.CLI, OLC6502.CLV,
      OLC6502.CMP, OLC6502.CPX, OLC6502.CPY, OLC6502.DEC, OLC6502.DEX, OLC6502.DEY,
      OLC6502.EOR, OLC6502.INC, OLC6502.INX, OLC6502.INY, OLC6502.JMP, OLC6502.JSR,
      OLC6502.LDA, OLC6502.LDX, OLC6502.LDY, OLC6502.LSR, OLC6502.NOP, OLC6502.ORA,
      OLC6502.PHA, OLC6502.PHP, OLC6502.PLA, OLC6502.PLP, OLC6502.ROL, OLC6502.ROR,
      OLC6502.RTI, OLC6502.RTS, OLC6502.SBC, OLC6502.SEC, OLC6502.SED, OLC6502.SEI,
      OLC6502.STA, OLC6502.STX, OLC6502.STY, OLC6502.TAX, OLC6502.TAY, OLC6502.TSX,
      OLC6502.TXA, OLC6502.TXS, OLC6502.TYA, OLC6502.XXX, OLC6502.write,
      branchOp_fst_opcode, setFlag_opcode] <;>
    first
      | rfl
      | (repeat' split) <;> simp [setFlag_opcode, OLC6502.write]

theorem exec_cycle_count (f : F) (s : OLC6502) :
    ((exec f s).1).cycle_count = s.cycle_count := by
  cases f <;>
    simp only [exec, OLC6502.IMP, OLC6502.IMM, OLC6502.ZP0, OLC6502.ZPX, OLC6502.ZPY,
      OLC6502.REL, OLC6502.ABS, OLC6502.ABX, OLC6502.ABY, OLC6502.IND, OLC6502.IZX,
      OLC6502.IZY, OLC6502.ADC, OLC6502.AND, OLC6502.ASL, OLC6502.BCC, OLC6502.BCS,
      OLC6502.BEQ, OLC6502.BIT, OLC6502.BMI, OLC6502.BNE, OLC6502.BPL, OLC6502.BRK,
      OLC6502.BVC, OLC6502.BVS, OLC6502.CLC, OLC6502.CLD, OLC6502.CLI, OLC6502.CLV,
      OLC6502.CMP, OLC6502.CPX, OLC6502.CPY, OLC6502.DEC, OLC6502.DEX, OLC6502.DEY,
      OLC6502.EOR, OLC6502.INC, OLC6502.INX, OLC6502.INY, OLC6502.JMP, OLC6502.JSR,
      OLC6502.LDA, OLC6502.LDX, OLC6502.LDY, OLC6502.LSR, OLC6502.NOP, OLC6502.ORA,
      OLC6502.PHA, OLC6502.PHP, OLC6502.PLA, OLC6502.PLP, OLC6502.ROL, OLC6502.ROR,
      OLC6502.RTI, OLC6502.RTS, OLC6502.SBC, OLC6502.SEC, OLC6502.SED, OLC6502.SEI,
      OLC6502.STA, OLC6502.STX, OLC6502.STY, OLC6502.TAX, OLC6502.TAY, OLC6502.TSX,
      OLC6502.TXA, OLC6502.TXS, OLC6502.TYA, OLC6502.XXX, OLC6502.write,
      branchOp_fst_cycle_count, setFlag_cycle_count] <;>
    first
      | rfl
      | (repeat' split) <;> simp [setFlag_cycle_count, OLC6502.write]

theorem exec_snd_le_one (f : F) (s : OLC6502) : (exec f s).2 ≤ 1 := by
  cases f <;>
    simp only [exec, OLC6502.IMP, OLC6502.IMM, OLC6502.ZP0, OLC6502.ZPX, OLC6502.ZPY,
      OLC6502.REL, OLC6502.ABS, OLC6502.ABX, OLC6502.ABY, OLC6502.IND, OLC6502.IZX,
      OLC6502.IZY, OLC6502.ADC, OLC6502.AND, OLC6502.ASL, OLC6502.BCC, OLC6502.BCS,
      OLC6502.BEQ, OLC6502.BIT, OLC6502.BMI, OLC6502.BNE, OLC6502.BPL, OLC6502.BRK,
      OLC6502.BVC, OLC6502.BVS, OLC6502.CLC, OLC6502.CLD, OLC6502.CLI, OLC6502.CLV,
      OLC6502.CMP, OLC6502.CPX, OLC6502.CPY, OLC6502.DEC, OLC6502.DEX, OLC6502.DEY,
      OLC6502.EOR, OLC6502.INC, OLC6502.INX, OLC6502.INY, OLC6502.JMP, OLC6502.JSR,
      OLC6502.LDA, OLC6502.LDX, OLC6502.LDY, OLC6502.LSR, OLC6502.NOP, OLC6502.ORA,
      OLC6502.PHA, OLC6502.PHP, OLC6502.PLA, OLC6502.PLP, OLC6502.ROL, OLC6502.ROR,
      OLC6502.RTI, OLC6502.RTS, OLC6502.SBC, OLC6502.SEC, OLC6502.SED, OLC6502.SEI,
      OLC6502.STA, OLC6502.STX, OLC6502.STY, OLC6502.TAX, OLC6502.TAY, OLC6502.TSX,
      OLC6502.TXA, OLC6502.TXS, OLC6502.TYA, OLC6502.XXX,
      branchOp_snd] <;>
    (try (repeat' split)) <;> simp

theorem exec_cycles (f : F) (s : OLC6502) (h : s.cycles < 256) :
    ((exec f s).1).cycles = (s.cycles + cyclesBump f s) % 256 := by
  cases f <;>
    first
      | (simp only [exec, cyclesBump]; exact branchOp_fst_cycles _ _ h)
      | (simp only [exec, cyclesBump, OLC6502.IMP, OLC6502.IMM, OLC6502.ZP0, OLC6502.ZPX,
          OLC6502.ZPY, OLC6502.REL, OLC6502.ABS, OLC6502.ABX, OLC6502.ABY, OLC6502.IND,
          OLC6502.IZX, OLC6502.IZY, OLC6502.ADC, OLC6502.AND, OLC6502.ASL, OLC6502.BIT,
          OLC6502.BRK, OLC6502.CLC, OLC6502.CLD, OLC6502.CLI, OLC6502.CLV,
          OLC6502.CMP, OLC6502.CPX, OLC6502.CPY, OLC6502.DEC, OLC6502.DEX, OLC6502.DEY,
          OLC6502.EOR, OLC6502.INC, OLC6502.INX, OLC6502.INY, OLC6502.JMP, OLC6502.JSR,
          OLC6502.LDA, OLC6502.LDX, OLC6502.LDY, OLC6502.LSR, OLC6502.NOP, OLC6502.ORA,
          OLC6502.PHA, OLC6502.PHP, OLC6502.PLA, OLC6502.PLP, OLC6502.ROL, OLC6502.ROR,
          OLC6502.RTI, OLC6502.RTS, OLC6502.SBC, OLC6502.SEC, OLC6502.SED, OLC6502.SEI,
          OLC6502.STA, OLC6502.STX, OLC6502.STY, OLC6502.TAX, OLC6502.TAY, OLC6502.TSX,
          OLC6502.TXA, OLC6502.TXS, OLC6502.TYA, OLC6502.XXX, OLC6502.write,
          setFlag_cycles]) <;>
        ((try (repeat' split)) <;> (try dsimp only) <;> omega)

theorem lookupInstr_default (n : Nat) (h : 256 ≤ n) :
    lookupInstr n = ⟨"???", .XXX, .IMP, 2⟩ := by
  unfold lookupInstr
  apply List.getD_eq_default
  have hlen : lookupList.length = 256 := by decide
  omega

theorem lookup_cycles_bound (n : Nat) :
    2 ≤ (lookupInstr n).cycles ∧ (lookupInstr n).cycles ≤ 8 := by
  rcases Nat.lt_or_ge n 256 with h | h
  · have hall : ∀ m, m < 256 → 2 ≤ (lookupInstr m).cycles ∧ (lookupInstr m).cycles ≤ 8 := by
      decide
    exact hall n h
  · rw [lookupInstr_default n h]
    decide

theorem lookup_addrmode_not_branch (n : Nat) :
    isBranch (lookupInstr n).addrmode = false := by
  rcases Nat.lt_or_ge n 256 with h | h
  · have hall : ∀ m, m < 256 → isBranch (lookupInstr m).addrmode = false := by decide
    exact hall n h
  · rw [lookupInstr_default n h]
    rfl

theorem cyclesBump_not_branch (f : F) (h : isBranch f = false) (s : OLC6502) :
    cyclesBump f s = 0 := by
  cases f <;> first | rfl | simp [isBranch] at h

theorem cyclesBump_le_two (f : F) (s : OLC6502) : cyclesBump f s ≤ 2 := by
  cases f <;> (try simp only [cyclesBump, condBump]) <;> (try (repeat' split)) <;> omega

/-- Claim C2 counterexample: on a taken BPL (opcode 0x10, displacement 5,
Negative clear) both extra-cycle return values are 0 and the base cost is
2, so the claimed boundary formula predicts 2 + (0 AND 0) - 1 = 1 cycle
remaining after the boundary tick, but the clock engine reports 2: the
branch body itself incremented `cycles`. -/
theorem clock_branch_counterexample :
    c2cex.cycles = 0 ∧
    (addrStep c2cex).2 = 0 ∧ (opStep c2cex).2 = 0 ∧
    (lookupInstr (fetchOpcode c2cex)).cycles = 2 ∧
    (OLC6502.clock c2cex).cycles = 2 ∧
    (OLC6502.clock c2cex).cycles ≠
      (lookupInstr (fetchOpcode c2cex)).cycles +
        ((addrStep c2cex).2 &&& (opStep c2cex).2) - 1 := by
  decide

/-- Claim C2 (amended): at an instruction boundary (`cycles == 0`) the
clock engine latches the opcode fetched at `pc`, advances `pc` by exactly
1 (mod 2^16) before handing the state to the addressing-mode resolver
(`afterFetch` is that prologue stage of `boundary`), leaves the Unused
flag forced set, and sets the remaining cycle budget to the tabulated base
count, plus the AND of the two extra-cycle return values, plus the direct
`cycles++` charges of a taken branch operation (1, or 2 on a page cross),
all subject to the boundary tick's own decrement; on every tick the
monotonic `cycle_count` grows by exactly 1 and `cycles` shrinks by exactly
1, and `complete()` reports true exactly when `cycles == 0`. -/
theorem clock_boundary_spec (s : OLC6502) (h0 : s.cycles = 0) :
    (OLC6502.clock s).opcode = fetchOpcode s ∧
    (afterFetch s).pc = (s.pc + 1) % 65536 ∧
    (OLC6502.clock s).cycle_count = s.cycle_count + 1 ∧
    getFlag (OLC6502.clock s) Flag.U = 1 ∧
    (OLC6502.clock s).cycles =
      (lookupInstr (fetchOpcode s)).cycles
        + cyclesBump (lookupInstr (fetchOpcode s)).operate (addrStep s).1
        + ((addrStep s).2 &&& (opStep s).2) - 1 ∧
    (∀ t : OLC6502, OLC6502.complete t = true ↔ t.cycles = 0) ∧
    (∀ t : OLC6502, t.cycles ≠ 0 → t.cycles < 256 →
      (OLC6502.clock t).cycles = t.cycles - 1 ∧
      (OLC6502.clock t).cycle_count = t.cycle_count + 1) := by
  have hb : OLC6502.clock s = tick (boundary s) := by
    unfold OLC6502.clock
    rw [if_pos h0]
  have hcyc8 := lookup_cycles_bound (fetchOpcode s)
  have haf_cycles : (afterFetch s).cycles = (lookupInstr (fetchOpcode s)).cycles := rfl
  have haf_lt : (afterFetch s).cycles < 256 := by
    rw [haf_cycles]
    omega
  have ha1 : (addrStep s).1.cycles = (lookupInstr (fetchOpcode s)).cycles := by
    unfold addrStep
    rw [exec_cycles _ _ haf_lt,
      cyclesBump_not_branch _ (lookup_addrmode_not_branch (fetchOpcode s)) _,
      Nat.add_zero, haf_cycles, Nat.mod_eq_of_lt (by omega)]
  have ha1_lt : (addrStep s).1.cycles < 256 := by
    rw [ha1]
    omega
  have hbump := cyclesBump_le_two (lookupInstr (fetchOpcode s)).operate (addrStep s).1
  have ho2 : (opStep s).1.cycles =
      (lookupInstr (fetchOpcode s)).cycles
        + cyclesBump (lookupInstr (fetchOpcode s)).operate (addrStep s).1 := by
    unfold opStep
    rw [exec_cycles _ _ ha1_lt, ha1, Nat.mod_eq_of_lt (by omega)]
  have hand : ((addrStep s).2 &&& (opStep s).2) ≤ 1 :=
    le_trans Nat.and_le_right (by unfold opStep; exact exec_snd_le_one _ _)
  have hbcycles : (boundary s).cycles =
      (lookupInstr (fetchOpcode s)).cycles
        + cyclesBump (lookupInstr (fetchOpcode s)).operate (addrStep s).1
        + ((addrStep s).2 &&& (opStep s).2) := by
    simp only [boundary, setFlag_cycles]
    rw [ho2, Nat.mod_eq_of_lt (by omega)]
  refine ⟨?_, ?_, ?_, ?_, ?_, ?_, ?_⟩
  · rw [hb]
    show (boundary s).opcode = fetchOpcode s
    simp only [boundary, opStep, addrStep, setFlag_opcode, exec_opcode, afterFetch]
  · show (afterFetch s).pc = (s.pc + 1) % 65536
    simp only [afterFetch, setFlag_pc]
  · rw [hb]
    show (boundary s).cycle_count + 1 = s.cycle_count + 1
    simp only [boundary, opStep, addrStep, setFlag_cycle_count, exec_cycle_count, afterFetch]
  · rw [hb]
    show getFlag (boundary s) Flag.U = 1
    simp only [boundary]
    rw [show (Flag.U : Nat) = 2 ^ 5 from rfl]
    exact getFlag_setFlag_self_true _ 5
  · rw [hb]
    show ((boundary s).cycles + 255) % 256 = _
    rw [hbcycles]
    omega
  · intro t
    simp [OLC6502.complete]
  · intro t h1 h2
    have hc : OLC6502.clock t = tick t := by
      unfold OLC6502.clock
      rw [if_neg h1]
    rw [hc]
    refine ⟨?_, rfl⟩
    show (t.cycles + 255) % 256 = t.cycles - 1
    omega

/-- Claim C2 witness: the boundary contract instantiated at the all-zero
state (opcode 0x00: BRK with Immediate addressing, 7 base cycles). -/
theorem clock_boundary_spec_witness :
    c2w.cycles = 0 ∧
    ((OLC6502.clock c2w).opcode = fetchOpcode c2w ∧
     (afterFetch c2w).pc = (c2w.pc + 1) % 65536 ∧
     (OLC6502.clock c2w).cycle_count = c2w.cycle_count + 1 ∧
     getFlag (OLC6502.clock c2w) Flag.U = 1 ∧
     (OLC6502.clock c2w).cycles =
       (lookupInstr (fetchOpcode c2w)).cycles
         + cyclesBump (lookupInstr (fetchOpcode c2w)).operate (addrStep c2w).1
         + ((addrStep c2w).2 &&& (opStep c2w).2) - 1 ∧
     (∀ t : OLC6502, OLC6502.complete t = true ↔ t.cycles = 0) ∧
     (∀ t : OLC6502, t.cycles ≠ 0 → t.cycles < 256 →
       (OLC6502.clock t).cycles = t.cycles - 1 ∧
       (OLC6502.clock t).cycle_count = t.cycle_count + 1)) :=
  ⟨rfl, clock_boundary_spec c2w rfl⟩

theorem step_det {e : Ev} {s t1 t2 : OLC6502} (h1 : Step e s t1) (h2 : Step e s t2) :
    t1 = t2 := by
  cases h1 <;> cases h2 <;> first | rfl | simp_all

/-- The step relation is total: every entry point is covered, and the
`clock` constructors together compute `OLC6502.clock`. -/
theorem step_clock_total (s : OLC6502) : Step Ev.clock s (OLC6502.clock s) := by
  by_cases h : s.cycles = 0
  · have : OLC6502.clock s = tick (boundary s) := by
      unfold OLC6502.clock
      rw [if_pos h]
    rw [this]
    exact Step.clock_boundary h
  · have : OLC6502.clock s = tick s := by
      unfold OLC6502.clock
      rw [if_neg h]
    rw [this]
    exact Step.clock_mid h

theorem step_irq_total (s : OLC6502) : Step Ev.irq s s.irq := by
  by_cases h : getFlag s Flag.I = 0
  · exact Step.irq_taken h
  · have : s.irq = s := by
      unfold OLC6502.irq
      rw [if_neg h]
    rw [this]
    exact Step.irq_masked h

theorem run_det {es : List Ev} {s t1 t2 : OLC6502}
    (h1 : Run es s t1) (h2 : Run es s t2) : t1 = t2 := by
  induction h1 generalizing t2 with
  | nil => cases h2; rfl
  | cons hs hr ih =>
    cases h2 with
    | cons hs2 hr2 =>
      have heq := step_det hs hs2
      subst heq
      exact ih hr2

/-- Claim C9: with a Bus connected (the RAM is part of the machine state),
any two runs of the same finite sequence of `clock`/`irq`/`nmi`/`reset`
invocations from the same initial state end in bit-identical accumulator,
X, Y, stack pointer, program counter, status and total cycle-count
values — the step relation mirroring the source's branch structure is
deterministic. -/
theorem run_deterministic {es : List Ev} {s t1 t2 : OLC6502}
    (h1 : Run es s t1) (h2 : Run es s t2) :
    t1.a = t2.a ∧ t1.x = t2.x ∧ t1.y = t2.y ∧ t1.sp = t2.sp ∧
    t1.pc = t2.pc ∧ t1.status = t2.status ∧ t1.cycle_count = t2.cycle_count := by
  have h := run_det h1 h2
  subst h
  exact ⟨rfl, rfl, rfl, rfl, rfl, rfl, rfl⟩

/-- Claim C9 witness: a concrete two-event run (reset, then one clock
tick) replayed twice from the same state. -/
theorem run_deterministic_witness :
    (tick (OLC6502.reset c9s)).a = (tick (OLC6502.reset c9s)).a ∧
    (tick (OLC6502.reset c9s)).x = (tick (OLC6502.reset c9s)).x ∧
    (tick (OLC6502.reset c9s)).y = (tick (OLC6502.reset c9s)).y ∧
    (tick (OLC6502.reset c9s)).sp = (tick (OLC6502.reset c9s)).sp ∧
    (tick (OLC6502.reset c9s)).pc = (tick (OLC6502.reset c9s)).pc ∧
    (tick (OLC6502.reset c9s)).status = (tick (OLC6502.reset c9s)).status ∧
    (tick (OLC6502.reset c9s)).cycle_count = (tick (OLC6502.reset c9s)).cycle_count := by
  have hmid : (OLC6502.reset c9s).cycles ≠ 0 := by decide
  have hrun : Run [Ev.reset, Ev.clock] c9s (tick (OLC6502.reset c9s)) :=
    Run.cons Step.reset_step (Run.cons (Step.clock_mid hmid) Run.nil)
  exact run_deterministic hrun hrun
